import Mathlib

/-!
Verification development for the simpy4chips example system
`Examples/RingOfProcessors.py`: six processors connected through six routers
forming two counter-rotating rings (A and B), with credit-controlled buffers
and pipelines. The definitions below are a shallow embedding of the data
model, routing decision, port configurations and assembly wiring of that
source file; the theorems settle the spec claims about them.
-/

namespace RingOfProcessors

/-- The named fields carried by every packet built in this example:
`BasePacket(fields={'srcProc': ..., 'destProc': ...})`. -/
structure PacketFields where
  srcProc : Nat
  destProc : Nat
  deriving DecidableEq, Repr

/-- `BasePacket`: a unique identifier `uid` plus the field map `f`. -/
structure BasePacket where
  uid : Nat
  f : PacketFields
  deriving DecidableEq, Repr

/-- State of a `RouterEgressArbiter` relevant to `route`: the parent
router's `routerID` (read through `self.parent.routerID`) and the mutable
bookkeeping maps `self.routes` and `self.routedPktList`, indexed by input
port. -/
structure RouterEgressArbiter where
  routerID : Nat
  routes : Nat → Option Nat
  routedPktList : Nat → Option BasePacket

/-- The output-port selection of `RouterEgressArbiter.route`:
`outPort = 1` when `pkt.f['destProc'] == self.parent.routerID and inPort == 0`,
otherwise `outPort = 0`. -/
def routeOut (routerID destProc inPort : Nat) : Nat :=
  if destProc = routerID ∧ inPort = 0 then 1 else 0

/-- `RouterEgressArbiter.route`: selects the output port for the packet
that arrived on `inPort` (in the source, `inPort` is recovered as the index
of the peek event that fired), then records the decision in `self.routes`
and the packet in `self.routedPktList`. Returns the selected output port
together with the updated arbiter state. -/
def RouterEgressArbiter.route (a : RouterEgressArbiter) (pkt : BasePacket)
    (inPort : Nat) : Nat × RouterEgressArbiter :=
  let outPort := routeOut a.routerID pkt.f.destProc inPort
  (outPort,
    { a with
      routes := Function.update a.routes inPort (some outPort)
      routedPktList := Function.update a.routedPktList inPort (some pkt) })

/-- A fresh arbiter state with empty bookkeeping, as right after
construction; used to instantiate universally quantified theorems at
concrete inputs. -/
def freshArbiter (rid : Nat) : RouterEgressArbiter :=
  ⟨rid, fun _ => none, fun _ => none⟩

/-- A port argument of a `connect` call: either a named port (e.g. 'rea')
or a numeric arbiter port index. -/
inductive PortRef where
  | named (s : String)
  | idx (n : Nat)
  deriving DecidableEq, Repr

/-- Identity of a unit in the assembled system: the routers and processors
(by their ID 0..5) and their child pipelines, buffers and arbiters, each
keyed the way the source keys them in `egports` / `igports` / `arbiters`. -/
inductive UnitRef where
  | router (i : Nat)
  | processor (i : Nat)
  | routerEg (i : Nat) (p : String)
  | routerIg (i : Nat) (p : String)
  | routerArb (i : Nat) (a : String)
  | procEg (i : Nat) (p : String)
  | procIg (i : Nat) (p : String)
  deriving DecidableEq, Repr

/-- Modelled from the spec: the framework's `connect` primitive (in
`Components.BasicComponent`, not part of the example source) establishes a
directed, immutable topology edge from one unit's (optionally named)
egress port to another unit's (optionally named) ingress port; the edges
and their endpoints below are taken verbatim from the example's `connect`
calls. -/
structure Edge where
  fromUnit : UnitRef
  fromPort : Option PortRef
  toUnit : UnitRef
  toPort : Option PortRef
  deriving DecidableEq, Repr

/-- Keys of `Router.egports` in insertion order. -/
def routerEgportNames : List String := ["rea", "reb", "pea", "peb"]

/-- Keys of `Router.igports` in insertion order. -/
def routerIgportNames : List String := ["ria", "rib", "pia", "pib"]

/-- Keys of `Processor.egports` in insertion order. -/
def procEgportNames : List String := ["pea", "peb"]

/-- Keys of `Processor.igports` in insertion order. -/
def procIgportNames : List String := ["pia", "pib"]

/-- `Router.connectInternal` for a router with `routerID = i`: alias each
egress pipeline to the router port of the same name, each router port to
the ingress buffer of the same name, wire buffers into the two arbiters'
numbered inputs and the arbiters' numbered outputs into the egress
pipelines. -/
def routerConnectInternal (i : Nat) : List Edge :=
  (routerEgportNames.map fun p =>
    ⟨.routerEg i p, none, .router i, some (.named p)⟩) ++
  (routerIgportNames.map fun p =>
    ⟨.router i, some (.named p), .routerIg i p, none⟩) ++
  [⟨.routerIg i "ria", none, .routerArb i "rea", some (.idx 0)⟩,
   ⟨.routerIg i "pia", none, .routerArb i "rea", some (.idx 1)⟩,
   ⟨.routerIg i "rib", none, .routerArb i "reb", some (.idx 0)⟩,
   ⟨.routerIg i "pib", none, .routerArb i "reb", some (.idx 1)⟩,
   ⟨.routerArb i "rea", some (.idx 0), .routerEg i "rea", none⟩,
   ⟨.routerArb i "rea", some (.idx 1), .routerEg i "pea", none⟩,
   ⟨.routerArb i "reb", some (.idx 0), .routerEg i "reb", none⟩,
   ⟨.routerArb i "reb", some (.idx 1), .routerEg i "peb", none⟩]

/-- `Processor.connectInternal` for a processor with `processorID = i`. -/
def procConnectInternal (i : Nat) : List Edge :=
  (procEgportNames.map fun p =>
    ⟨.procEg i p, none, .processor i, some (.named p)⟩) ++
  (procIgportNames.map fun p =>
    ⟨.processor i, some (.named p), .procIg i p, none⟩)

/-- `Example1.connectP2R`: the four processor-router bindings. -/
def connectP2R (p r : Nat) : List Edge :=
  [⟨.processor p, some (.named "pea"), .router r, some (.named "pia")⟩,
   ⟨.processor p, some (.named "peb"), .router r, some (.named "pib")⟩,
   ⟨.router r, some (.named "pea"), .processor p, some (.named "pia")⟩,
   ⟨.router r, some (.named "peb"), .processor p, some (.named "pib")⟩]

/-- `Example1.connectR2R`: router0's 'rea' feeds router1's 'ria' (ring A)
and router1's 'reb' feeds router0's 'rib' (ring B). -/
def connectR2R (r0 r1 : Nat) : List Edge :=
  [⟨.router r0, some (.named "rea"), .router r1, some (.named "ria")⟩,
   ⟨.router r1, some (.named "reb"), .router r0, some (.named "rib")⟩]

/-- `Example1.createSystem`: for each processorID 0..5, construct the
processor and router (their internal wiring), connect the pair, chain to
the previous router when processorID > 0, and close both rings at
processorID = 5. -/
def createSystemEdges : List Edge :=
  (List.range 6).flatMap fun i =>
    procConnectInternal i ++ routerConnectInternal i ++ connectP2R i i ++
    (if i > 0 then connectR2R (i - 1) i else []) ++
    (if i = 5 then connectR2R 5 0 else [])

/-- Constructor parameters of a `FlowControlledPipeline`. -/
structure PipelineCfg where
  depth : Nat
  putBytesPerCycle : Nat
  initCredits : Nat
  deriving DecidableEq, Repr

/-- Constructor parameters of a `FlowControlledBuffer`. -/
structure BufferCfg where
  capacity : Nat
  deriving DecidableEq, Repr

/-- Pipeline constructor parameters as given in `Router.__init__` and
`Processor.__init__`. -/
def pipelineCfgOf : UnitRef → Option PipelineCfg
  | .routerEg _ "rea" => some ⟨4, 8, 4⟩
  | .routerEg _ "reb" => some ⟨4, 8, 4⟩
  | .routerEg _ "pea" => some ⟨2, 8, 2⟩
  | .routerEg _ "peb" => some ⟨2, 8, 2⟩
  | .procEg _ "pea" => some ⟨2, 8, 2⟩
  | .procEg _ "peb" => some ⟨2, 8, 2⟩
  | _ => none

/-- Buffer constructor parameters as given in `Router.__init__` and
`Processor.__init__`. -/
def bufferCfgOf : UnitRef → Option BufferCfg
  | .routerIg _ "ria" => some ⟨4⟩
  | .routerIg _ "rib" => some ⟨4⟩
  | .routerIg _ "pia" => some ⟨2⟩
  | .routerIg _ "pib" => some ⟨2⟩
  | .procIg _ "pia" => some ⟨2⟩
  | .procIg _ "pib" => some ⟨2⟩
  | _ => none

/-- Whether a pipeline is ring-facing ('rea' / 'reb'). -/
def isRingPipeline : UnitRef → Bool
  | .routerEg _ "rea" => true
  | .routerEg _ "reb" => true
  | _ => false

/-- The pipeline-to-buffer feed bindings of the assembled system: each
top-level edge between two units connects the named egress pipeline behind
the from-port to the named ingress buffer behind the to-port (the aliases
established by the two `connectInternal` methods). -/
def interUnitBindings : List (UnitRef × UnitRef) :=
  createSystemEdges.filterMap fun e =>
    match e with
    | ⟨.router i, some (.named p), .router j, some (.named q)⟩ =>
        some (.routerEg i p, .routerIg j q)
    | ⟨.router i, some (.named p), .processor j, some (.named q)⟩ =>
        some (.routerEg i p, .procIg j q)
    | ⟨.processor i, some (.named p), .router j, some (.named q)⟩ =>
        some (.procEg i p, .routerIg j q)
    | _ => none

/-- The unit feeding input `k` of arbiter `arb` of router `i`, read off
the router's internal wiring. -/
def arbInputSource (i : Nat) (arb : String) (k : Nat) : Option UnitRef :=
  ((routerConnectInternal i).find? fun e =>
    decide (e.toUnit = UnitRef.routerArb i arb) &&
      decide (e.toPort = some (PortRef.idx k))).map fun e => e.fromUnit

/-- The unit fed by output `k` of arbiter `arb` of router `i`, read off
the router's internal wiring. -/
def arbOutputDest (i : Nat) (arb : String) (k : Nat) : Option UnitRef :=
  ((routerConnectInternal i).find? fun e =>
    decide (e.fromUnit = UnitRef.routerArb i arb) &&
      decide (e.fromPort = some (PortRef.idx k))).map fun e => e.toUnit

/-- Packets injected by one invocation of `Processor.runEgPort`: the body
loops `for i in range(1)` and puts one packet per iteration. -/
def packetsPerEgPortRun : Nat := (List.range 1).length

/-- Packets injected by one processor: `Processor.run` spawns `runEgPort`
once for each of the processor's two egress ports ('pea' and 'peb'). -/
def packetsPerProcessor : Nat :=
  (procEgportNames.map fun _ => packetsPerEgPortRun).sum

/-- Packets injected into the fabric over the whole run: `createSystem`
constructs six processors, each contributing `packetsPerProcessor`. -/
def totalInjectedPackets : Nat :=
  ((List.range 6).map fun _ => packetsPerProcessor).sum

/-- Destination selection of `Processor.runEgPort`: draw
`random.randint(0,5)` (modelled by the stream `rolls` of values in 0..5,
read from index `k` on) and redraw while the draw equals the injecting
processor's own `processorID`; `fuel` bounds the redraw loop so the
function is total. -/
def chooseDest (processorID : Nat) (rolls : Nat → Fin 6) :
    Nat → Nat → Option (Fin 6)
  | _, 0 => none
  | k, fuel + 1 =>
      if (rolls k).val = processorID then
        chooseDest processorID rolls (k + 1) fuel
      else some (rolls k)

/-- The packet built by `Processor.runEgPort`:
`BasePacket(fields={'srcProc': self.processorID, 'destProc': destProc})`. -/
def mkInjectedPacket (uid processorID destProc : Nat) : BasePacket :=
  ⟨uid, ⟨processorID, destProc⟩⟩

/-- Modelled from the spec: the credit state of a
`FlowControlledPipeline` (in `Components.Pipelines`, not part of the
example source). `creditBalance` starts at `initCredits`; a packet is
accepted only while `creditBalance > 0`, which transfers one credit to the
in-flight count; the downstream buffer returns one credit per packet it
removes, never more than are outstanding. -/
structure PipelineCredit where
  initCredits : Int
  creditBalance : Int
  outstanding : Int
  deriving DecidableEq, Repr

/-- A pipeline's credit state at construction. -/
def PipelineCredit.start (ic : Int) : PipelineCredit := ⟨ic, ic, 0⟩

/-- Modelled from the spec: the two credit-moving transitions of a
pipeline. `send` accepts a packet (requires a credit, moves it to the
outstanding in-flight count); `receiveCredit` is the downstream buffer
returning a credit for one removed packet (requires one outstanding). -/
inductive CreditStep : PipelineCredit → PipelineCredit → Prop where
  | send (s : PipelineCredit) (h : 0 < s.creditBalance) :
      CreditStep s ⟨s.initCredits, s.creditBalance - 1, s.outstanding + 1⟩
  | receiveCredit (s : PipelineCredit) (h : 0 < s.outstanding) :
      CreditStep s ⟨s.initCredits, s.creditBalance + 1, s.outstanding - 1⟩

/-- The credit states a pipeline can be in at any point of a simulation:
those reachable from a nonnegative initial configuration by credit
transitions. -/
inductive CreditReachable : PipelineCredit → Prop where
  | start (ic : Int) (h : 0 ≤ ic) : CreditReachable (PipelineCredit.start ic)
  | step (s t : PipelineCredit) (hs : CreditReachable s)
      (h : CreditStep s t) : CreditReachable t

/-- C1: a peeked packet is routed to the processor-facing output (port 1)
iff its destProc equals the parent router's routerID and it arrived on the
ring-facing input (port 0); in every other case it goes to the ring-facing
output (port 0). -/
theorem route_exits_iff_dest_match_on_ring_input
    (a : RouterEgressArbiter) (pkt : BasePacket) (inPort : Nat) :
    ((a.route pkt inPort).1 = 1 ↔
      pkt.f.destProc = a.routerID ∧ inPort = 0) ∧
    ((a.route pkt inPort).1 = 0 ↔
      ¬(pkt.f.destProc = a.routerID ∧ inPort = 0)) := by
  unfold RouterEgressArbiter.route routeOut
  by_cases h : pkt.f.destProc = a.routerID ∧ inPort = 0 <;> simp [h]

/-- C7: the routing decision is deterministic and stateless: on the same
router (same `routerID`), two invocations of `route` with equal packet
destProc fields and the same input port select the same output port, for
any values of the other packet fields (uid, srcProc) and any mutable
arbiter bookkeeping state (routes, routedPktList). -/
theorem route_deterministic_stateless
    (a b : RouterEgressArbiter) (p q : BasePacket) (inPort : Nat)
    (hid : a.routerID = b.routerID)
    (hdest : p.f.destProc = q.f.destProc) :
    (a.route p inPort).1 = (b.route q inPort).1 := by
  simp [RouterEgressArbiter.route, routeOut, hid, hdest]

/-- Witness for C7: two invocations on router 3 with destProc 3 on input
port 0, differing in uid, srcProc and bookkeeping state, agree. -/
theorem route_deterministic_stateless_witness :
    ((RouterEgressArbiter.mk 3 (fun _ => none) (fun _ => none)).route
        ⟨0, ⟨1, 3⟩⟩ 0).1 =
      ((RouterEgressArbiter.mk 3 (fun _ => some 0)
          (fun _ => some ⟨9, ⟨5, 3⟩⟩)).route ⟨7, ⟨2, 3⟩⟩ 0).1 :=
  route_deterministic_stateless _ _ _ _ 0 rfl rfl

/-- C10: a packet arriving on the processor-facing input (port 1) is
routed to the ring-facing output (port 0) regardless of its destination;
in particular a packet injected at its own destination router r stays on
the ring there, is forwarded onward (output 0) at every router it meets
during hops 1..5 around the 6-ring, and first exits (output 1) at hop 6,
back at router r's ring-facing input. -/
theorem route_proc_input_to_ring
    (r k : Nat) (hr : r < 6) (a : RouterEgressArbiter) (pkt : BasePacket) :
    (a.route pkt 1).1 = 0 ∧
    (pkt.f.destProc = r →
      ((1 ≤ k → k < 6 → routeOut ((r + k) % 6) r 0 = 0) ∧
        routeOut ((r + 6) % 6) r 0 = 1)) := by
  refine ⟨?_, fun _ => ⟨fun hk1 hk6 => ?_, ?_⟩⟩
  · simp [RouterEgressArbiter.route, routeOut]
  · simp only [routeOut, ite_eq_right_iff]
    intro h
    exact absurd h.1 (by omega)
  · have h6 : (r + 6) % 6 = r := by omega
    simp [routeOut, h6]

/-- Witness for C10: at router 2 a packet destined to 2 injected on the
processor-facing input is put on the ring, continues at hop 3 (router 5),
and exits at hop 6 (router 2 again). -/
theorem route_proc_input_to_ring_witness :
    ((freshArbiter 2).route ⟨0, ⟨2, 2⟩⟩ 1).1 = 0 ∧
    ((BasePacket.mk 0 ⟨2, 2⟩).f.destProc = 2 →
      ((1 ≤ 3 → 3 < 6 → routeOut ((2 + 3) % 6) 2 0 = 0) ∧
        routeOut ((2 + 6) % 6) 2 0 = 1)) :=
  route_proc_input_to_ring 2 3 (by decide) (freshArbiter 2) ⟨0, ⟨2, 2⟩⟩

/-- C4: every router constructed in the system (routerID 0..5) has exactly
the fixed internal composition: the four egress-pipeline aliases, the four
ingress-buffer aliases, arbiter 'rea' taking ria as input 0 and pia as
input 1, arbiter 'reb' taking rib as input 0 and pib as input 1, and the
arbiters' outputs 0/1 feeding rea/pea resp. reb/peb; nothing else, and
nothing after construction changes it. -/
theorem router_fixed_composition : ∀ i : Fin 6,
    routerConnectInternal i.val =
      [⟨.routerEg i.val "rea", none, .router i.val, some (.named "rea")⟩,
       ⟨.routerEg i.val "reb", none, .router i.val, some (.named "reb")⟩,
       ⟨.routerEg i.val "pea", none, .router i.val, some (.named "pea")⟩,
       ⟨.routerEg i.val "peb", none, .router i.val, some (.named "peb")⟩,
       ⟨.router i.val, some (.named "ria"), .routerIg i.val "ria", none⟩,
       ⟨.router i.val, some (.named "rib"), .routerIg i.val "rib", none⟩,
       ⟨.router i.val, some (.named "pia"), .routerIg i.val "pia", none⟩,
       ⟨.router i.val, some (.named "pib"), .routerIg i.val "pib", none⟩,
       ⟨.routerIg i.val "ria", none, .routerArb i.val "rea", some (.idx 0)⟩,
       ⟨.routerIg i.val "pia", none, .routerArb i.val "rea", some (.idx 1)⟩,
       ⟨.routerIg i.val "rib", none, .routerArb i.val "reb", some (.idx 0)⟩,
       ⟨.routerIg i.val "pib", none, .routerArb i.val "reb", some (.idx 1)⟩,
       ⟨.routerArb i.val "rea", some (.idx 0), .routerEg i.val "rea", none⟩,
       ⟨.routerArb i.val "rea", some (.idx 1), .routerEg i.val "pea", none⟩,
       ⟨.routerArb i.val "reb", some (.idx 0), .routerEg i.val "reb", none⟩,
       ⟨.routerArb i.val "reb", some (.idx 1), .routerEg i.val "peb", none⟩] ∧
    arbInputSource i.val "rea" 0 = some (.routerIg i.val "ria") ∧
    arbInputSource i.val "rea" 1 = some (.routerIg i.val "pia") ∧
    arbInputSource i.val "reb" 0 = some (.routerIg i.val "rib") ∧
    arbInputSource i.val "reb" 1 = some (.routerIg i.val "pib") ∧
    arbOutputDest i.val "rea" 0 = some (.routerEg i.val "rea") ∧
    arbOutputDest i.val "rea" 1 = some (.routerEg i.val "pea") ∧
    arbOutputDest i.val "reb" 0 = some (.routerEg i.val "reb") ∧
    arbOutputDest i.val "reb" 1 = some (.routerEg i.val "peb") := by
  decide

/-- C5: system assembly binds, exactly once each, router i's 'rea' to
router ((i+1) mod 6)'s 'ria' (ring A) and router ((i+1) mod 6)'s 'reb' to
router i's 'rib' (ring B), for every i, and each router's processor-facing
ports to its attached processor's ports, exactly once each. -/
theorem createSystem_ring_bindings : ∀ i : Fin 6,
    createSystemEdges.count
      ⟨.router i.val, some (.named "rea"),
        .router ((i.val + 1) % 6), some (.named "ria")⟩ = 1 ∧
    createSystemEdges.count
      ⟨.router ((i.val + 1) % 6), some (.named "reb"),
        .router i.val, some (.named "rib")⟩ = 1 ∧
    createSystemEdges.count
      ⟨.processor i.val, some (.named "pea"),
        .router i.val, some (.named "pia")⟩ = 1 ∧
    createSystemEdges.count
      ⟨.processor i.val, some (.named "peb"),
        .router i.val, some (.named "pib")⟩ = 1 ∧
    createSystemEdges.count
      ⟨.router i.val, some (.named "pea"),
        .processor i.val, some (.named "pia")⟩ = 1 ∧
    createSystemEdges.count
      ⟨.router i.val, some (.named "peb"),
        .processor i.val, some (.named "pib")⟩ = 1 := by
  decide

/-- C3: in every pipeline-to-buffer binding of the assembled system, the
pipeline's initCredits equals the capacity of the ingress buffer it feeds:
4 for ring-facing pipelines feeding ria/rib, 2 for processor-facing
pipelines feeding pia/pib, on routers and processors alike. -/
theorem initCredits_match_downstream_capacity :
    ∀ pr ∈ interUnitBindings,
      (pipelineCfgOf pr.1).map (fun c => c.initCredits) =
        (bufferCfgOf pr.2).map (fun b => b.capacity) ∧
      (if isRingPipeline pr.1 then
          (pipelineCfgOf pr.1).map (fun c => c.initCredits) = some 4
        else
          (pipelineCfgOf pr.1).map (fun c => c.initCredits) = some 2) := by
  decide

/-- Witness for C3: the ring-A binding from router 0's 'rea' pipeline to
router 1's 'ria' buffer is in the system and both sides agree on 4. -/
theorem initCredits_match_downstream_capacity_witness :
    (pipelineCfgOf (UnitRef.routerEg 0 "rea")).map (fun c => c.initCredits) =
        (bufferCfgOf (UnitRef.routerIg 1 "ria")).map (fun b => b.capacity) ∧
    (if isRingPipeline (UnitRef.routerEg 0 "rea") then
        (pipelineCfgOf (UnitRef.routerEg 0 "rea")).map
          (fun c => c.initCredits) = some 4
      else
        (pipelineCfgOf (UnitRef.routerEg 0 "rea")).map
          (fun c => c.initCredits) = some 2) :=
  initCredits_match_downstream_capacity
    (UnitRef.routerEg 0 "rea", UnitRef.routerIg 1 "ria") (by decide)

/-- Counterexample to C2: each processor spawns `runEgPort` on both of
its egress ports and each run injects one packet, so a node injects 2
packets, not 1, and the system injects 12 packets in total, not 6. -/
theorem six_packet_total_counterexample :
    packetsPerProcessor = 2 ∧ totalInjectedPackets = 12 ∧
    ¬(packetsPerProcessor = 1 ∧ totalInjectedPackets = 6) := by
  decide

/-- C2 (amended): each node injects exactly 1 packet on each of its two
egress ports (one per ring), giving 2 per node and exactly 12 packets
total injected into the fabric over the whole run. -/
theorem per_port_injection_totals :
    packetsPerEgPortRun = 1 ∧ packetsPerProcessor = 2 ∧
    totalInjectedPackets = 12 := by
  decide

/-- C6: whenever the destination-selection loop of `Processor.runEgPort`
returns a destination, the injected packet's destProc is a valid node
identity (in 0..5) and differs from the injecting processor's own
processorID. -/
theorem injected_packet_dest_valid (processorID uid k fuel : Nat)
    (rolls : Nat → Fin 6) (d : Fin 6)
    (h : chooseDest processorID rolls k fuel = some d) :
    (mkInjectedPacket uid processorID d.val).f.destProc < 6 ∧
    (mkInjectedPacket uid processorID d.val).f.destProc ≠ processorID := by
  refine ⟨d.isLt, ?_⟩
  induction fuel generalizing k with
  | zero => exact absurd h (by simp [chooseDest])
  | succ n ih =>
      rw [chooseDest] at h
      split at h
      · exact ih (k + 1) h
      · next hc =>
          cases Option.some.inj h
          exact hc

/-- Witness for C6: processor 0 with a roll stream constantly 1 picks
destination 1, which is valid and differs from 0. -/
theorem injected_packet_dest_valid_witness :
    chooseDest 0 (fun _ => (1 : Fin 6)) 0 1 = some 1 ∧
    ((mkInjectedPacket 0 0 (1 : Fin 6).val).f.destProc < 6 ∧
      (mkInjectedPacket 0 0 (1 : Fin 6).val).f.destProc ≠ 0) :=
  ⟨rfl, injected_packet_dest_valid 0 0 0 1 (fun _ => 1) 1 rfl⟩

/-- Counterexample to C8: an unreachable destination identity is not
detected: system assembly completes in full (all 156 bindings are made,
with no validation of destinations, which do not exist at assembly time),
and at simulation time `route` handles a packet with the unreachable
destProc 6 at router 0 as a perfectly normal packet, sending it to the
ring-facing output 0 from either input; no error path exists. -/
theorem unreachable_dest_not_detected_counterexample :
    createSystemEdges.length = 156 ∧
    ((freshArbiter 0).route ⟨0, ⟨0, 6⟩⟩ 0).1 = 0 ∧
    ((freshArbiter 0).route ⟨0, ⟨0, 6⟩⟩ 1).1 = 0 :=
  ⟨rfl, rfl, rfl⟩

/-- C8 (amended): an unreachable destination identity is not a detected
configuration error: assembly performs no destination validation, and the
routing function silently routes such a packet to the ring-facing output
(port 0) at every router and from every input port, so it circulates on
the ring indefinitely instead of failing fast. -/
theorem unreachable_dest_circulates (r : Fin 6) (inPort : Nat) :
    routeOut r.val 6 inPort = 0 := by
  have h6 : ¬(6 = r.val) := by have := r.isLt; omega
  simp [routeOut, h6]

/-- C9 (pipeline credit protocol modelled from the spec): in every
reachable credit state of a pipeline, creditBalance plus the packets sent
and not yet credited equals initCredits; in particular creditBalance is
never negative and never exceeds initCredits. -/
theorem credit_conservation (s : PipelineCredit) (hs : CreditReachable s) :
    s.creditBalance + s.outstanding = s.initCredits ∧
    0 ≤ s.creditBalance ∧ 0 ≤ s.outstanding ∧
    s.creditBalance ≤ s.initCredits := by
  induction hs with
  | start ic h =>
      dsimp only [PipelineCredit.start]
      omega
  | step s t hs hstep ih =>
      obtain ⟨ih1, ih2, ih3, ih4⟩ := ih
      cases hstep with
      | send h => dsimp only; omega
      | receiveCredit h => dsimp only; omega

/-- Witness for C9: the state reached from a fresh 4-credit pipeline
after accepting one packet (balance 3, one outstanding) satisfies the
conservation bound. -/
theorem credit_conservation_witness :
    (PipelineCredit.mk 4 3 1).creditBalance +
        (PipelineCredit.mk 4 3 1).outstanding =
      (PipelineCredit.mk 4 3 1).initCredits ∧
    0 ≤ (PipelineCredit.mk 4 3 1).creditBalance ∧
    0 ≤ (PipelineCredit.mk 4 3 1).outstanding ∧
    (PipelineCredit.mk 4 3 1).creditBalance ≤
      (PipelineCredit.mk 4 3 1).initCredits :=
  credit_conservation _
    (CreditReachable.step _ _ (CreditReachable.start 4 (by decide))
      (CreditStep.send (PipelineCredit.start 4) (by decide)))

end RingOfProcessors
